import Mathlib

/-!
Shallow embedding of `src/example/c/simple.c` from the `glad` repository.

The program keeps two process-wide integers `width` and `height`
(initialized to 600×600), registers a `reshape` and a `display`
callback with GLUT, loads OpenGL function pointers, performs a version
capability check, and enters the GLUT main loop.

The embedding models the mutable globals as an explicit `State`,
OpenGL and GLUT library calls as events collected in traces, `printf`
lines as a list of strings, and the three possible ways `main` stops
making progress (hard `exit`, normal `return`, entering the never
returning event loop) as an `Outcome`.
-/

namespace SimpleC

/-- Numeric value of the OpenGL constant `GL_COLOR_BUFFER_BIT`. -/
def GL_COLOR_BUFFER_BIT : Nat := 0x00004000

/-- Numeric value of the OpenGL constant `GL_DEPTH_BUFFER_BIT`. -/
def GL_DEPTH_BUFFER_BIT : Nat := 0x00000100

/-- Numeric value of the OpenGL constant `GL_DEPTH_TEST`. -/
def GL_DEPTH_TEST : Nat := 0x0B71

/-- Numeric value of the GLUT constant `GLUT_RGBA`. -/
def GLUT_RGBA : Nat := 0

/-- Numeric value of the GLUT constant `GLUT_DEPTH`. -/
def GLUT_DEPTH : Nat := 16

/-- Numeric value of the GLUT constant `GLUT_DOUBLE`. -/
def GLUT_DOUBLE : Nat := 2

/-- The process-wide mutable state of `simple.c`:
`static int width = 600, height = 600;` (line 17). -/
structure State where
  width : Int
  height : Int
  deriving DecidableEq, Repr

/-- The initial values of the globals: `width = 600, height = 600`. -/
def initialState : State := { width := 600, height := 600 }

/-- One call into the OpenGL context, as issued by the callbacks.
Color and depth arguments are the exact literals of the C source,
carried symbolically as rationals (no arithmetic is performed on
them). -/
inductive GLCall where
  | clearColor (r g b a : ℚ)
  | clear (mask : Nat)
  | swapBuffers
  | postRedisplay
  | viewport (x y w h : Int)
  | clearDepth (d : ℚ)
  | enable (cap : Nat)
  deriving DecidableEq, Repr

/-- One call into the GLUT toolkit, as issued by `main`. -/
inductive GlutCall where
  | init
  | initDisplayMode (mode : Nat)
  | initWindowSize (w h : Int)
  | createWindow (title : String)
  | reshapeFunc
  | displayFunc
  | mainLoop
  deriving DecidableEq, Repr

/-- How the modeled `main` stops making progress: a hard `exit(code)`
primitive, a normal `return code` from the entry point, or entering
the blocking GLUT event loop (which never returns). -/
inductive Outcome where
  | exited (code : Int)
  | returned (code : Int)
  | eventLoop
  deriving DecidableEq, Repr

/-- The `display` callback (lines 19–25): sets the clear color to
`(1.0, 0.2, 0.7, 1.0)`, clears color and depth buffers, swaps the
buffers and requests another redisplay.  It neither reads nor writes
the globals; the state is passed through so that claims about its
effect on the stored dimensions can be stated. -/
def display (s : State) : State × List GLCall :=
  (s,
    [ GLCall.clearColor 1 (2/10) (7/10) 1
    , GLCall.clear (GL_COLOR_BUFFER_BIT ||| GL_DEPTH_BUFFER_BIT)
    , GLCall.swapBuffers
    , GLCall.postRedisplay ])

/-- The `reshape` callback (lines 27–35):
`width = w > 1 ? w : 1; height = h > 1 ? h : 1;` then sets the
viewport to the stored dimensions, the clear depth to `1.0`, the
clear color to `(0,0,0,0)` and enables depth testing. -/
def reshape (w h : Int) (_s : State) : State × List GLCall :=
  let width : Int := if w > 1 then w else 1
  let height : Int := if h > 1 then h else 1
  ({ width := width, height := height },
    [ GLCall.viewport 0 0 width height
    , GLCall.clearDepth 1
    , GLCall.clearColor 0 0 0 0
    , GLCall.enable GL_DEPTH_TEST ])
  -- `s` is the previous value of the globals; `reshape` overwrites both
  -- fields unconditionally, so the result does not mention `s`.

/-- The environment `main` runs in: the value returned by
`gladLoadGLInternalLoader()`, the `GLAD_GL_VERSION_2_0` capability
flag, and the two driver-reported strings returned by `glGetString`. -/
structure Env where
  version : Int
  glVersion20 : Bool
  versionString : String
  glslString : String
  deriving DecidableEq, Repr

/-- Everything observable about one run of `main`: the `printf` lines
(without trailing newline), how the run stops, the final value of the
globals, and the trace of GLUT calls issued. -/
structure MainResult where
  output : List String
  outcome : Outcome
  state : State
  glutCalls : List GlutCall
  deriving DecidableEq, Repr

/-- The line printed by `printf("OpenGL %d.%d\n", version / 10,
version % 10)` (line 54).  C's `/` and `%` on `int` truncate toward
zero, which is `Int.tdiv` and `Int.tmod`. -/
def versionLine (version : Int) : String :=
  "OpenGL " ++ toString (Int.tdiv version 10) ++ "." ++ toString (Int.tmod version 10)

/-- The success line printed by line 60–62:
`printf("OpenGL %s, GLSL %s\n", ...)`. -/
def versionStringsLine (env : Env) : String :=
  "OpenGL " ++ env.versionString ++ ", GLSL " ++ env.glslString

/-- The `main` function (lines 37–67).  It first issues the GLUT setup
calls — note that `glutInitWindowSize(width, height)` (line 41) reads
the globals — then branches on the loader result and the capability
flag exactly as the C source does.  `main` never assigns to the
globals, so the resulting state is always the input state. -/
def main (env : Env) (s : State) : MainResult :=
  let setup : List GlutCall :=
    [ GlutCall.init
    , GlutCall.initDisplayMode (GLUT_RGBA ||| GLUT_DEPTH ||| GLUT_DOUBLE)
    , GlutCall.initWindowSize s.width s.height
    , GlutCall.createWindow "cookie"
    , GlutCall.reshapeFunc
    , GlutCall.displayFunc ]
  if env.version = 0 then
    { output := ["Something went wrong!"]
    , outcome := Outcome.exited (-1)
    , state := s
    , glutCalls := setup }
  else if env.glVersion20 = false then
    { output := [versionLine env.version, "Your system doesn't support OpenGL >= 2!"]
    , outcome := Outcome.returned (-1)
    , state := s
    , glutCalls := setup }
  else
    { output := [versionLine env.version, versionStringsLine env]
    , outcome := Outcome.eventLoop
    , state := s
    , glutCalls := setup ++ [GlutCall.mainLoop] }

/-- The invariant claimed of the stored dimensions. -/
def dimsValid (s : State) : Prop := 1 ≤ s.width ∧ 1 ≤ s.height

instance (s : State) : Decidable (dimsValid s) := by
  unfold dimsValid; infer_instance

/-! Helper lemmas shared by the claim theorems. -/

/-- The C clamp `x > 1 ? x : 1` is `max x 1`. -/
theorem clamp_eq_max (x : Int) : (if x > 1 then x else 1) = max x 1 := by
  rw [max_def]; split_ifs <;> omega

/-- The state produced by `reshape` is the clamped arguments. -/
theorem reshape_state (w h : Int) (s : State) :
    (reshape w h s).1 = { width := max w 1, height := max h 1 } := by
  simp only [reshape, clamp_eq_max]

/-- `main` never assigns to the globals. -/
theorem main_state_eq (env : Env) (s : State) : (main env s).state = s := by
  unfold main; split_ifs <;> rfl

/-! The claim theorems. -/

/-- C1: for every pair of integers `(w, h)`, `reshape w h` sets the
stored width to `w` clamped to a minimum of `1` and the stored height
to `h` clamped to a minimum of `1`; for `w ≥ 1` (resp. `h ≥ 1`) the
stored value is exactly `w` (resp. `h`), and for `w ≤ 0` (resp.
`h ≤ 0`) it is `1`. -/
theorem C1_on_resize_clamps (w h : Int) (s : State) :
    (reshape w h s).1.width = max w 1
    ∧ (reshape w h s).1.height = max h 1
    ∧ (1 ≤ w → (reshape w h s).1.width = w)
    ∧ (1 ≤ h → (reshape w h s).1.height = h)
    ∧ (w ≤ 0 → (reshape w h s).1.width = 1)
    ∧ (h ≤ 0 → (reshape w h s).1.height = 1) := by
  rw [reshape_state]
  refine ⟨rfl, rfl, fun hw => ?_, fun hh => ?_, fun hw => ?_, fun hh => ?_⟩ <;>
    simp only [] <;> omega

/-- Witness for C1 at `w = 5`, `h = -3`. -/
theorem C1_on_resize_clamps_witness :
    (reshape 5 (-3) initialState).1.width = 5
    ∧ (reshape 5 (-3) initialState).1.height = 1 :=
  ⟨(C1_on_resize_clamps 5 (-3) initialState).2.2.1 (by decide),
   (C1_on_resize_clamps 5 (-3) initialState).2.2.2.2.2 (by decide)⟩

/-- C2: if the loader returns version `0`, `main` prints
"Something went wrong!" and terminates with a nonzero status via the
hard `exit` primitive; the result does not depend on the capability
flag, so no capability check has run. -/
theorem C2_loader_failure (env : Env) (s : State) (h : env.version = 0) :
    (main env s).output = ["Something went wrong!"]
    ∧ (main env s).outcome = Outcome.exited (-1)
    ∧ (∃ code : Int, code ≠ 0 ∧ (main env s).outcome = Outcome.exited code)
    ∧ (∀ b : Bool, main { env with glVersion20 := b } s = main env s) := by
  refine ⟨?_, ?_, ⟨-1, by decide, ?_⟩, fun b => ?_⟩ <;> simp [main, h]

/-- Witness for C2 at a concrete environment with version `0`. -/
theorem C2_loader_failure_witness :
    (main ⟨0, true, "4.6", "4.60"⟩ initialState).output = ["Something went wrong!"] :=
  (C2_loader_failure ⟨0, true, "4.6", "4.60"⟩ initialState rfl).1

/-- C3: if the loader succeeds but the OpenGL 2.0 capability flag is
false, `main` prints "Your system doesn't support OpenGL >= 2!" and
yields the nonzero status `-1` by a normal return from the entry
point, without calling `glutMainLoop`. -/
theorem C3_capability_failure (env : Env) (s : State)
    (hv : env.version ≠ 0) (hc : env.glVersion20 = false) :
    "Your system doesn't support OpenGL >= 2!" ∈ (main env s).output
    ∧ (main env s).outcome = Outcome.returned (-1)
    ∧ (∃ code : Int, code ≠ 0 ∧ (main env s).outcome = Outcome.returned code)
    ∧ GlutCall.mainLoop ∉ (main env s).glutCalls := by
  refine ⟨?_, ?_, ⟨-1, by decide, ?_⟩, ?_⟩ <;> simp [main, hv, hc]

/-- Witness for C3 at a concrete environment with version `21` and
capability flag false. -/
theorem C3_capability_failure_witness :
    (main ⟨21, false, "2.1", "1.20"⟩ initialState).outcome = Outcome.returned (-1) :=
  (C3_capability_failure ⟨21, false, "2.1", "1.20"⟩ initialState (by decide) rfl).2.1

/-- C4 counterexample: in a run whose capability check fails (version
`21`, flag false), the decoded version line "OpenGL 2.1" is printed
anyway — the run does not emit only the capability diagnostic, so the
version line is not printed only on successful runs. -/
theorem C4_counterexample :
    (main ⟨21, false, "2.1", "1.20"⟩ initialState).outcome = Outcome.returned (-1)
    ∧ versionLine 21 = "OpenGL 2.1"
    ∧ (main ⟨21, false, "2.1", "1.20"⟩ initialState).output
        = ["OpenGL 2.1", "Your system doesn't support OpenGL >= 2!"] := by
  refine ⟨rfl, ?_, ?_⟩ <;> decide

/-- C4 amended: the decoded version line is printed on every run in
which the loader succeeds, including runs that fail the capability
check; a capability-failing run emits the version line followed by
the capability diagnostic. -/
theorem C4_version_line_when_loader_succeeds (env : Env) (s : State)
    (hv : env.version ≠ 0) :
    versionLine env.version ∈ (main env s).output
    ∧ (env.glVersion20 = false →
        (main env s).output
          = [versionLine env.version, "Your system doesn't support OpenGL >= 2!"]) := by
  cases hb : env.glVersion20 <;> refine ⟨?_, fun hc => ?_⟩ <;> simp_all [main]

/-- Witness for the amended C4 at version `21`, capability flag false. -/
theorem C4_version_line_when_loader_succeeds_witness :
    versionLine 21 ∈ (main ⟨21, false, "2.1", "1.20"⟩ initialState).output :=
  (C4_version_line_when_loader_succeeds ⟨21, false, "2.1", "1.20"⟩ initialState (by decide)).1

/-- C5 counterexample: `main` reads the stored width and height — the
trace of GLUT calls it issues differs between two states that differ
only in the stored dimensions (line 41,
`glutInitWindowSize(width, height)`), so the globals are not read
only by the resize callback. -/
theorem C5_counterexample :
    (main ⟨33, true, "3.3", "3.30"⟩ { width := 600, height := 600 }).glutCalls
      ≠ (main ⟨33, true, "3.3", "3.30"⟩ { width := 5, height := 5 }).glutCalls := by
  decide

/-- C5 amended: the stored width and height are mutated only by the
resize callback; they are read by the resize callback and, in
addition, by `main`, which passes them to `glutInitWindowSize`; the
display callback neither reads nor writes them, and `main` leaves
them unchanged and its printed output and outcome do not depend on
them. -/
theorem C5_state_access (env : Env) (s t : State) :
    (main env s).state = s
    ∧ (display s).1 = s
    ∧ (display s).2 = (display t).2
    ∧ GlutCall.initWindowSize s.width s.height ∈ (main env s).glutCalls
    ∧ (main env s).output = (main env t).output
    ∧ (main env s).outcome = (main env t).outcome := by
  refine ⟨main_state_eq env s, rfl, rfl, ?_, ?_, ?_⟩ <;>
    unfold main <;> split_ifs <;> simp

/-- C6: the invariant `width ≥ 1 ∧ height ≥ 1` holds of the initial
state `600×600` and is preserved by `reshape` (unconditionally), by
`display` and by `main`. -/
theorem C6_invariant (w h : Int) (env : Env) (s : State) (hs : dimsValid s) :
    dimsValid initialState
    ∧ dimsValid (reshape w h s).1
    ∧ dimsValid (display s).1
    ∧ dimsValid (main env s).state := by
  refine ⟨by decide, ?_, hs, ?_⟩
  · rw [reshape_state]
    exact ⟨le_max_right w 1, le_max_right h 1⟩
  · rw [main_state_eq]; exact hs

/-- Witness for C6 at `w = -7`, `h = 0` and the initial state. -/
theorem C6_invariant_witness :
    dimsValid (reshape (-7) 0 initialState).1 :=
  (C6_invariant (-7) 0 ⟨33, true, "3.3", "3.30"⟩ initialState (by decide)).2.1

/-- C7: for every input `(w, h)` and every prior state, `reshape`
issues exactly these OpenGL calls: set the viewport to the clamped
dimensions, reset the clear depth to `1.0`, set the clear color to
transparent black `(0,0,0,0)`, and enable depth testing. -/
theorem C7_on_resize_gl_calls (w h : Int) (s : State) :
    (reshape w h s).2 =
      [ GLCall.viewport 0 0 (max w 1) (max h 1)
      , GLCall.clearDepth 1
      , GLCall.clearColor 0 0 0 0
      , GLCall.enable GL_DEPTH_TEST ] := by
  simp only [reshape, clamp_eq_max]

/-- C8: on a successful run (loader succeeded, capability flag true),
the first printed line is "OpenGL %d.%d" with the major part the
truncating division of the encoded version by `10` and the minor part
its remainder modulo `10`; for encoded `33` this is "OpenGL 3.3". -/
theorem C8_version_format (env : Env) (s : State)
    (hv : env.version ≠ 0) (hc : env.glVersion20 = true) :
    (main env s).output.head? =
      some ("OpenGL " ++ toString (Int.tdiv env.version 10) ++ "."
              ++ toString (Int.tmod env.version 10))
    ∧ versionLine 33 = "OpenGL 3.3" := by
  refine ⟨?_, by decide⟩
  simp [main, hv, hc, versionLine]

/-- Witness for C8 at encoded version `33`. -/
theorem C8_version_format_witness :
    (main ⟨33, true, "3.3", "3.30"⟩ initialState).output.head? = some "OpenGL 3.3" :=
  (C8_version_format ⟨33, true, "3.3", "3.30"⟩ initialState (by decide) rfl).1

/-- C9: the display callback leaves the stored width and height
unchanged. -/
theorem C9_display_preserves_state (s : State) :
    (display s).1.width = s.width ∧ (display s).1.height = s.height :=
  ⟨rfl, rfl⟩

/-- C10: the state produced by `reshape w h` depends only on `(w, h)`,
not on the prior stored values; in particular `reshape` is
idempotent. -/
theorem C10_resize_depends_only_on_args (w h : Int) (s t : State) :
    (reshape w h s).1 = (reshape w h t).1
    ∧ (reshape w h ((reshape w h s).1)).1 = (reshape w h s).1 :=
  ⟨rfl, rfl⟩

end SimpleC
